import Mathlib

/-!
Verification of the dapr-agents example notebooks.

The repository consists of two Jupyter notebooks:
  * Notebook A (`weather_tools.ipynb`): defines two tool functions
    (`get_weather`, `jump`), constructs a `ReActAgent`, runs it three times
    and inspects its chat history.
  * Notebook B (`chroma_sentencetransformers_all-MiniLM-L6-v2.ipynb`):
    constructs a `SentenceTransformerEmbedder` and a `ChromaVectorStore`
    and exercises add/get/update/delete/search/filter/reset operations.

The notebooks' code cells are embedded below as a small Python AST
(`PyExpr` / `PyStmt`), transcribed statement by statement from the source.
Pure functions defined in the notebooks (`get_weather`, `jump`) are also
embedded directly as Lean functions; the drawing of a random temperature is
made explicit by a seed parameter.
-/

/-- Expressions of the Python fragment used by the notebooks.
F-strings are represented structurally (`fstr` concatenates the rendered
parts), keyword arguments by the `kw` wrapper, and dict literals as lists
of `pair`s. -/
inductive PyExpr where
  | strLit (s : String)
  | intLit (n : Int)
  | boolLit (b : Bool)
  | ident (x : String)
  | attr (e : PyExpr) (fld : String)
  | subscript (e : PyExpr) (ix : PyExpr)
  | call (f : PyExpr) (args : List PyExpr)
  | kw (nm : String) (e : PyExpr)
  | listLit (xs : List PyExpr)
  | dictLit (pairs : List PyExpr)
  | pair (k v : PyExpr)
  | fstr (parts : List PyExpr)
  | tupleLit (xs : List PyExpr)

/-- Statements of the Python fragment used by the notebooks.  Constructors
for exception handling (`tryExcept`, `raiseStmt`, `assertStmt`),
conditionals (`ifStmt`) and concurrency (`asyncFuncDef`, `awaitStmt`) are
included so that their absence from the transcripts is a meaningful,
checkable fact rather than an artifact of the embedding. -/
inductive PyStmt where
  | fromImport (module : String) (names : List String)
  | plainImport (module : String)
  | exprStmt (e : PyExpr)
  | assign (targets : List String) (e : PyExpr)
  | ret (e : PyExpr)
  | funcDef (nm : String) (params : List String) (decorators : List PyExpr) (body : List PyStmt)
  | classDef (nm : String) (bases : List String) (body : List PyStmt)
  | forIn (vars : List String) (iter : PyExpr) (body : List PyStmt)
  | tryExcept (body : List PyStmt) (handlers : List PyStmt)
  | ifStmt (cond : PyExpr) (thenBody elseBody : List PyStmt)
  | raiseStmt (e : PyExpr)
  | assertStmt (e : PyExpr)
  | asyncFuncDef (nm : String) (params : List String) (body : List PyStmt)
  | awaitStmt (e : PyExpr)
  | shellCmd (cmd : String)

/-- Dotted head name of a callable expression, e.g. `store.add_documents`. -/
def headName : PyExpr → String
  | .ident x => x
  | .attr e fld => headName e ++ "." ++ fld
  | _ => "?"

mutual

/-- Labels (under the labelling `g` of callee expressions) of the calls an
expression performs, in evaluation order (subexpressions before the
enclosing call). -/
def exprCallsWith (g : PyExpr → List String) : PyExpr → List String
  | .strLit _ => []
  | .intLit _ => []
  | .boolLit _ => []
  | .ident _ => []
  | .attr e _ => exprCallsWith g e
  | .subscript e ix => exprCallsWith g e ++ exprCallsWith g ix
  | .call f args => exprCallsWith g f ++ exprListCallsWith g args ++ g f
  | .kw _ e => exprCallsWith g e
  | .listLit xs => exprListCallsWith g xs
  | .dictLit xs => exprListCallsWith g xs
  | .pair k v => exprCallsWith g k ++ exprCallsWith g v
  | .fstr xs => exprListCallsWith g xs
  | .tupleLit xs => exprListCallsWith g xs

def exprListCallsWith (g : PyExpr → List String) : List PyExpr → List String
  | [] => []
  | e :: rest => exprCallsWith g e ++ exprListCallsWith g rest

end

mutual

/-- Labels of the calls a statement performs when the cell containing it
is executed.  A function definition only evaluates its decorators at
definition time: its body runs when the function is later invoked, so body
calls are not part of the cell-execution trace.  Class bodies, loop bodies
and branch bodies do execute. -/
def stmtCallsWith (g : PyExpr → List String) : PyStmt → List String
  | .fromImport _ _ => []
  | .plainImport _ => []
  | .exprStmt e => exprCallsWith g e
  | .assign _ e => exprCallsWith g e
  | .ret e => exprCallsWith g e
  | .funcDef _ _ decorators _ => exprListCallsWith g decorators
  | .classDef _ _ body => stmtListCallsWith g body
  | .forIn _ iter body => exprCallsWith g iter ++ stmtListCallsWith g body
  | .tryExcept body handlers => stmtListCallsWith g body ++ stmtListCallsWith g handlers
  | .ifStmt cond thenBody elseBody =>
      exprCallsWith g cond ++ stmtListCallsWith g thenBody ++ stmtListCallsWith g elseBody
  | .raiseStmt e => exprCallsWith g e
  | .assertStmt e => exprCallsWith g e
  | .asyncFuncDef _ _ _ => []
  | .awaitStmt e => exprCallsWith g e
  | .shellCmd _ => []

def stmtListCallsWith (g : PyExpr → List String) : List PyStmt → List String
  | [] => []
  | s :: rest => stmtCallsWith g s ++ stmtListCallsWith g rest

end

/-- Labelling that names every callee by its dotted head. -/
def headLabel (f : PyExpr) : List String := [headName f]

/-- Heads of the calls a statement list performs, in evaluation order. -/
def stmtListCalls : List PyStmt → List String := stmtListCallsWith headLabel

/-- Heads of the calls a single statement performs, in evaluation order. -/
def stmtCalls : PyStmt → List String := stmtCallsWith headLabel

/-- The dotted method path of a callee rooted at the variable `store`
(`store.get` ↦ `get`, `store.client.list_collections` ↦
`client.list_collections`); `none` for any other callee. -/
def storePath : PyExpr → Option String
  | .ident "store" => some ""
  | .attr e m =>
      match storePath e with
      | some "" => some m
      | some p => some (p ++ "." ++ m)
      | none => none
  | _ => none

/-- Labelling that names only callees rooted at `store`. -/
def storeLabel (f : PyExpr) : List String :=
  match storePath f with
  | some p => [p]
  | none => []

mutual

/-- Whether a statement contains (at any nesting depth) an exception
handler. -/
def stmtHasTry : PyStmt → Bool
  | .tryExcept _ _ => true
  | .funcDef _ _ _ body => stmtListHasTry body
  | .classDef _ _ body => stmtListHasTry body
  | .forIn _ _ body => stmtListHasTry body
  | .ifStmt _ thenBody elseBody => stmtListHasTry thenBody || stmtListHasTry elseBody
  | .asyncFuncDef _ _ body => stmtListHasTry body
  | _ => false

def stmtListHasTry : List PyStmt → Bool
  | [] => false
  | s :: rest => stmtHasTry s || stmtListHasTry rest

end

mutual

/-- Whether a statement contains (at any nesting depth) a conditional,
i.e. any check of a result. -/
def stmtHasIf : PyStmt → Bool
  | .ifStmt _ _ _ => true
  | .funcDef _ _ _ body => stmtListHasIf body
  | .classDef _ _ body => stmtListHasIf body
  | .forIn _ _ body => stmtListHasIf body
  | .tryExcept body handlers => stmtListHasIf body || stmtListHasIf handlers
  | .asyncFuncDef _ _ body => stmtListHasIf body
  | _ => false

def stmtListHasIf : List PyStmt → Bool
  | [] => false
  | s :: rest => stmtHasIf s || stmtListHasIf rest

end

mutual

/-- Whether a statement contains a `raise` or `assert`. -/
def stmtHasRaise : PyStmt → Bool
  | .raiseStmt _ => true
  | .assertStmt _ => true
  | .funcDef _ _ _ body => stmtListHasRaise body
  | .classDef _ _ body => stmtListHasRaise body
  | .forIn _ _ body => stmtListHasRaise body
  | .tryExcept body handlers => stmtListHasRaise body || stmtListHasRaise handlers
  | .ifStmt _ thenBody elseBody => stmtListHasRaise thenBody || stmtListHasRaise elseBody
  | .asyncFuncDef _ _ body => stmtListHasRaise body
  | _ => false

def stmtListHasRaise : List PyStmt → Bool
  | [] => false
  | s :: rest => stmtHasRaise s || stmtListHasRaise rest

end

/-- Modules whose import would indicate concurrency or scheduling logic. -/
def concurrencyModules : List String :=
  ["threading", "asyncio", "multiprocessing", "concurrent", "concurrent.futures", "queue", "sched"]

mutual

/-- Whether a statement authors any concurrency construct: an import of a
concurrency module, an `async def`, or an `await`. -/
def stmtUsesConcurrency : PyStmt → Bool
  | .fromImport m _ => concurrencyModules.contains m
  | .plainImport m => concurrencyModules.contains m
  | .asyncFuncDef _ _ _ => true
  | .awaitStmt _ => true
  | .funcDef _ _ _ body => stmtListUsesConcurrency body
  | .classDef _ _ body => stmtListUsesConcurrency body
  | .forIn _ _ body => stmtListUsesConcurrency body
  | .tryExcept body handlers => stmtListUsesConcurrency body || stmtListUsesConcurrency handlers
  | .ifStmt _ thenBody elseBody =>
      stmtListUsesConcurrency thenBody || stmtListUsesConcurrency elseBody
  | _ => false

def stmtListUsesConcurrency : List PyStmt → Bool
  | [] => false
  | s :: rest => stmtUsesConcurrency s || stmtListUsesConcurrency rest

end

/-!
### Notebook A transcript

`src/unnamed/part_000` — "OpenAI Tool Calling Agent - Dummy Weather
Example".  One Lean list of statements per code cell, in cell order.
-/

/-- Cell 1: `from dotenv import load_dotenv` / `load_dotenv()`. -/
def cellA1 : List PyStmt :=
  [ .fromImport "dotenv" ["load_dotenv"],
    .exprStmt (.call (.ident "load_dotenv") []) ]

/-- Cell 2: `import logging` / `logging.basicConfig(level=logging.INFO)`. -/
def cellA2 : List PyStmt :=
  [ .plainImport "logging",
    .exprStmt (.call (.attr (.ident "logging") "basicConfig")
      [.kw "level" (.attr (.ident "logging") "INFO")]) ]

/-- Cell 3: schema classes, the two tool functions and the `tools` list. -/
def cellA3 : List PyStmt :=
  [ .fromImport "dapr_agents" ["tool"],
    .fromImport "pydantic" ["BaseModel", "Field"],
    .classDef "GetWeatherSchema" ["BaseModel"]
      [ .assign ["location"]
          (.call (.ident "Field") [.kw "description" (.strLit "location to get weather for")]) ],
    .funcDef "get_weather" ["location"]
      [ .call (.ident "tool") [.kw "args_model" (.ident "GetWeatherSchema")] ]
      [ .plainImport "random",
        .assign ["temperature"]
          (.call (.attr (.ident "random") "randint") [.intLit 60, .intLit 80]),
        .ret (.fstr [.ident "location", .strLit ": ", .ident "temperature", .strLit "F."]) ],
    .classDef "JumpSchema" ["BaseModel"]
      [ .assign ["distance"]
          (.call (.ident "Field") [.kw "description" (.strLit "Distance for agent to jump")]) ],
    .funcDef "jump" ["distance"]
      [ .call (.ident "tool") [.kw "args_model" (.ident "JumpSchema")] ]
      [ .ret (.fstr [.strLit "I jumped the following distance ", .ident "distance"]) ],
    .assign ["tools"] (.listLit [.ident "get_weather", .ident "jump"]) ]

/-- Cell 4: `AIAgent = ReActAgent(name="Rob", role="Weather Assistant", tools=tools)`. -/
def cellA4 : List PyStmt :=
  [ .fromImport "dapr_agents" ["ReActAgent"],
    .assign ["AIAgent"]
      (.call (.ident "ReActAgent")
        [ .kw "name" (.strLit "Rob"),
          .kw "role" (.strLit "Weather Assistant"),
          .kw "tools" (.ident "tools") ]) ]

/-- Cell 5: `AIAgent.prompt_template`. -/
def cellA5 : List PyStmt :=
  [ .exprStmt (.attr (.ident "AIAgent") "prompt_template") ]

/-- Cell 6: `AIAgent.tools[0].name`. -/
def cellA6 : List PyStmt :=
  [ .exprStmt (.attr (.subscript (.attr (.ident "AIAgent") "tools") (.intLit 0)) "name") ]

/-- Cell 7: first `AIAgent.run` call. -/
def cellA7 : List PyStmt :=
  [ .exprStmt (.call (.attr (.ident "AIAgent") "run") [.strLit "Hi my name is Roberto"]) ]

/-- Cell 8: `AIAgent.chat_history`. -/
def cellA8 : List PyStmt :=
  [ .exprStmt (.attr (.ident "AIAgent") "chat_history") ]

/-- Cell 9: second `AIAgent.run` call. -/
def cellA9 : List PyStmt :=
  [ .exprStmt (.call (.attr (.ident "AIAgent") "run")
      [.strLit "What is the weather in Virgina, New York and Washington DC?"]) ]

/-- Cell 10: third `AIAgent.run` call. -/
def cellA10 : List PyStmt :=
  [ .exprStmt (.call (.attr (.ident "AIAgent") "run")
      [.strLit "What places did you already help me with the weather?"]) ]

/-- Cell 11: `AIAgent.chat_history`. -/
def cellA11 : List PyStmt :=
  [ .exprStmt (.attr (.ident "AIAgent") "chat_history") ]

/-- Notebook A's code cells, in order (the final cell is empty). -/
def notebookA : List (List PyStmt) :=
  [cellA1, cellA2, cellA3, cellA4, cellA5, cellA6, cellA7, cellA8, cellA9, cellA10, cellA11, []]

/-- Notebook A's statements in execution order. -/
def notebookAStmts : List PyStmt := notebookA.flatten

/-!
### Notebook B transcript

`src/cookbook/vectorstores/chroma_sentencetransformers_all-MiniLM-L6-v2.ipynb`.
-/

/-- Cell 2: `!pip install ...` shell magic. -/
def cellB1 : List PyStmt :=
  [ .shellCmd "pip install dapr-agents python-dotenv chromadb sentence-transformers" ]

/-- Cell 4: `from dotenv import load_dotenv` / `load_dotenv()`. -/
def cellB2 : List PyStmt :=
  [ .fromImport "dotenv" ["load_dotenv"],
    .exprStmt (.call (.ident "load_dotenv") []) ]

/-- Cell 6: construct the `SentenceTransformerEmbedder`. -/
def cellB3 : List PyStmt :=
  [ .fromImport "dapr_agents.document.embedder" ["SentenceTransformerEmbedder"],
    .assign ["embedding_function"]
      (.call (.ident "SentenceTransformerEmbedder") [.kw "model" (.strLit "all-MiniLM-L6-v2")]) ]

/-- Cell 8: construct the `ChromaVectorStore`. -/
def cellB4 : List PyStmt :=
  [ .fromImport "dapr_agents.storage" ["ChromaVectorStore"],
    .assign ["store"]
      (.call (.ident "ChromaVectorStore")
        [ .kw "name" (.strLit "example_collection"),
          .kw "embedding_function" (.ident "embedding_function"),
          .kw "persistent" (.boolLit false),
          .kw "host" (.strLit "localhost"),
          .kw "port" (.intLit 8000) ]) ]

/-- Metadata dict literal `{"topic": t, "location": l}` of a `Document`. -/
def docMeta (topic location : String) : PyExpr :=
  .dictLit [ .pair (.strLit "topic") (.strLit topic),
             .pair (.strLit "location") (.strLit location) ]

/-- A `Document(text=..., metadata=...)` constructor call. -/
def docCall (text : PyExpr) (meta : PyExpr) : PyExpr :=
  .call (.ident "Document") [.kw "text" text, .kw "metadata" meta]

/-- Cell 11: the ten example `Document`s. -/
def cellB5 : List PyStmt :=
  [ .fromImport "dapr_agents.types.document" ["Document"],
    .assign ["documents"] (.listLit
      [ docCall (.strLit "Gandalf: A wizard is never late, Frodo Baggins. Nor is he early; he arrives precisely when he means to.")
          (docMeta "wisdom" "The Shire"),
        docCall (.strLit "Frodo: I wish the Ring had never come to me. I wish none of this had happened.")
          (docMeta "destiny" "Moria"),
        docCall (.strLit "Aragorn: You cannot wield it! None of us can. The One Ring answers to Sauron alone. It has no other master.")
          (docMeta "power" "Rivendell"),
        docCall (.strLit "Sam: I can\x27t carry it for you, but I can carry you!")
          (docMeta "friendship" "Mount Doom"),
        docCall (.strLit "Legolas: A red sun rises. Blood has been spilled this night.")
          (docMeta "war" "Rohan"),
        docCall (.strLit "Gimli: Certainty of death. Small chance of success. What are we waiting for?")
          (docMeta "bravery" "Helm\x27s Deep"),
        docCall (.strLit "Boromir: One does not simply walk into Mordor.")
          (docMeta "impossible tasks" "Rivendell"),
        docCall (.strLit "Galadriel: Even the smallest person can change the course of the future.")
          (docMeta "hope" "Lothlórien"),
        docCall (.strLit "Théoden: So it begins.")
          (docMeta "battle" "Helm\x27s Deep"),
        docCall (.strLit "Elrond: The strength of the Ring-bearer is failing. In his heart, Frodo begins to understand. The quest will claim his life.")
          (docMeta "sacrifice" "Rivendell") ]) ]

/-- Cell 13: `store.add_documents(documents=documents)` and the count print. -/
def cellB6 : List PyStmt :=
  [ .exprStmt (.call (.attr (.ident "store") "add_documents") [.kw "documents" (.ident "documents")]),
    .exprStmt (.call (.ident "print")
      [ .fstr [.strLit "Number of documents in the collection: ",
               .call (.attr (.ident "store") "count") []] ]) ]

/-- Cell 15: `store.get()` and the print loop over the retrieved documents. -/
def cellB7 : List PyStmt :=
  [ .assign ["retrieved_docs"] (.call (.attr (.ident "store") "get") []),
    .exprStmt (.call (.ident "print") [.strLit "Retrieved documents:"]),
    .forIn ["doc"] (.ident "retrieved_docs")
      [ .exprStmt (.call (.ident "print")
          [ .fstr [.strLit "ID: ", .subscript (.ident "doc") (.strLit "id"),
                   .strLit ", Text: ", .subscript (.ident "doc") (.strLit "document"),
                   .strLit ", Metadata: ", .subscript (.ident "doc") (.strLit "metadata")] ]) ] ]

/-- Cell 17: select an id from a fresh `store.get()`, `store.update(...)`,
then verify through `store.get(ids=[doc_id])`. -/
def cellB8 : List PyStmt :=
  [ .assign ["retrieved_docs"] (.call (.attr (.ident "store") "get") []),
    .assign ["doc_id"] (.subscript (.subscript (.ident "retrieved_docs") (.intLit 0)) (.strLit "id")),
    .assign ["updated_text"]
      (.strLit "Gandalf: Even the wisest cannot foresee all ends, but hope remains while the Company is true."),
    .assign ["updated_metadata"] (docMeta "hope and wisdom" "Fangorn Forest"),
    .exprStmt (.call (.attr (.ident "store") "update")
      [ .kw "ids" (.listLit [.ident "doc_id"]),
        .kw "documents" (.listLit [.ident "updated_text"]),
        .kw "metadatas" (.listLit [.ident "updated_metadata"]) ]),
    .assign ["updated_doc"] (.call (.attr (.ident "store") "get") [.kw "ids" (.listLit [.ident "doc_id"])]),
    .exprStmt (.call (.ident "print") [.fstr [.strLit "Updated document: ", .ident "updated_doc"]]) ]

/-- Cell 19: `store.delete(ids=[doc_id_to_delete])` and the count print. -/
def cellB9 : List PyStmt :=
  [ .assign ["doc_id_to_delete"] (.subscript (.subscript (.ident "retrieved_docs") (.intLit 2)) (.strLit "id")),
    .exprStmt (.call (.attr (.ident "store") "delete") [.kw "ids" (.listLit [.ident "doc_id_to_delete"])]),
    .exprStmt (.call (.ident "print")
      [ .fstr [.strLit "Number of documents after deletion: ",
               .call (.attr (.ident "store") "count") []] ]) ]

/-- Cell 21: `store.search_similar(query_texts=query, k=2)` and the result loop. -/
def cellB10 : List PyStmt :=
  [ .assign ["query"] (.strLit "wise advice"),
    .assign ["results"] (.call (.attr (.ident "store") "search_similar")
      [.kw "query_texts" (.ident "query"), .kw "k" (.intLit 2)]),
    .exprStmt (.call (.ident "print") [.strLit "Similarity search results:"]),
    .forIn ["doc", "metadata"]
      (.call (.ident "zip")
        [ .subscript (.ident "results") (.strLit "documents"),
          .subscript (.ident "results") (.strLit "metadatas") ])
      [ .exprStmt (.call (.ident "print") [.fstr [.strLit "Text: ", .ident "doc"]]),
        .exprStmt (.call (.ident "print") [.fstr [.strLit "Metadata: ", .ident "metadata"]]) ] ]

/-- Cell 23: the metadata filter and `store.query_with_filters(...)`. -/
def cellB11 : List PyStmt :=
  [ .assign ["filter_conditions"] (.dictLit
      [ .pair (.strLit "$and") (.listLit
          [ .dictLit [.pair (.strLit "location") (.dictLit [.pair (.strLit "$eq") (.strLit "Fangorn Forest")])],
            .dictLit [.pair (.strLit "topic") (.dictLit [.pair (.strLit "$eq") (.strLit "hope and wisdom")])] ]) ]),
    .assign ["filtered_results"] (.call (.attr (.ident "store") "query_with_filters")
      [ .kw "query_texts" (.listLit [.strLit "journey"]),
        .kw "where" (.ident "filter_conditions"),
        .kw "k" (.intLit 3) ]) ]

/-- Cell 24: display `filtered_results`. -/
def cellB12 : List PyStmt :=
  [ .exprStmt (.ident "filtered_results") ]

/-- Cell 26: `store.client.list_collections()`. -/
def cellB13 : List PyStmt :=
  [ .exprStmt (.call (.attr (.attr (.ident "store") "client") "list_collections") []) ]

/-- Cell 27: `store.reset()`. -/
def cellB14 : List PyStmt :=
  [ .exprStmt (.call (.attr (.ident "store") "reset") []) ]

/-- Cell 28: `store.client.list_collections()` again. -/
def cellB15 : List PyStmt :=
  [ .exprStmt (.call (.attr (.attr (.ident "store") "client") "list_collections") []) ]

/-- Notebook B's code cells, in order (the final cell is empty). -/
def notebookB : List (List PyStmt) :=
  [cellB1, cellB2, cellB3, cellB4, cellB5, cellB6, cellB7, cellB8,
   cellB9, cellB10, cellB11, cellB12, cellB13, cellB14, cellB15, []]

/-- Notebook B's statements in execution order. -/
def notebookBStmts : List PyStmt := notebookB.flatten

/-!
### Semantic models

Pure Lean embeddings of the functions the notebooks define, plus models —
each marked as such — for the small pieces of framework behaviour that
the claims mention and whose code is not under `src/`.
-/

/-- Model of Python's `random.randint(lo, hi)`: returns an integer `t`
with `lo <= t <= hi`, both bounds inclusive.  The randomness is made
explicit by the `seed` parameter. -/
def randint (lo hi seed : Nat) : Nat :=
  lo + seed % (hi + 1 - lo)

/-- Notebook A's `get_weather` tool (cell 3):
`temperature = random.randint(60, 80); return f"{location}: {temperature}F."`. -/
def get_weather (location : String) (seed : Nat) : String :=
  let temperature := randint 60 80 seed
  location ++ ": " ++ toString temperature ++ "F."

/-- Notebook A's `jump` tool (cell 3):
`return f"I jumped the following distance {distance}"`. -/
def jump (distance : String) : String :=
  "I jumped the following distance " ++ distance

/-- Split a character list at underscores. -/
def splitAtUnderscores : List Char → List (List Char)
  | [] => [[]]
  | c :: cs =>
      let rest := splitAtUnderscores cs
      if c = '_' then [] :: rest
      else
        match rest with
        | [] => [[c]]
        | w :: ws => (c :: w) :: ws

/-- Uppercase the first character of a word. -/
def capitalizeWord (w : List Char) : String :=
  match w with
  | [] => ""
  | c :: cs => String.mk (c.toUpper :: cs)

/-- Modelled from the spec: the `dapr_agents` `tool` decorator (library
code, not under `src/`) registers each tool under the PascalCase form of
the decorated function's snake_case name; Notebook A's recorded logs show
`get_weather` registered as `GetWeather` and `jump` as `Jump`. -/
def toolRegistrationName (pythonName : String) : String :=
  String.join ((splitAtUnderscores pythonName.data).map capitalizeWord)

/-- Names of the functions defined at the top level of Notebook A. -/
def notebookAFuncDefNames : List String :=
  notebookAStmts.filterMap fun s =>
    match s with
    | .funcDef nm _ _ _ => some nm
    | _ => none

/-- The identifiers in the list assigned to `tools` in Notebook A
(`tools = [get_weather,jump]`). -/
def toolsListNames : List String :=
  (notebookAStmts.filterMap fun s =>
    match s with
    | .assign ["tools"] (.listLit xs) => some xs
    | _ => none).flatten.filterMap fun e =>
      match e with
      | .ident x => some x
      | _ => none

/-- The expression passed as the `tools=` keyword argument to the
`ReActAgent` constructor in Notebook A. -/
def reActAgentToolsArg : List PyExpr :=
  (notebookAStmts.filterMap fun s =>
    match s with
    | .assign ["AIAgent"] (.call (.ident "ReActAgent") args) =>
        some (args.filterMap fun a =>
          match a with
          | .kw "tools" e => some e
          | _ => none)
    | _ => none).flatten

/-- The tool names the constructed agent registers: the registration names
of the functions in the `tools` list, in order. -/
def registeredToolNames : List String :=
  toolsListNames.map toolRegistrationName

/-- A chat message as rendered in Notebook A's recorded `chat_history`
outputs: a role (`user` or `assistant`) and a content string. -/
inductive ChatMsg where
  | user (content : String)
  | assistant (content : String)
deriving DecidableEq

/-- Modelled from the spec: the effect of one `AIAgent.run(prompt)` call
on `chat_history` (`ReActAgent.run` is dapr-agents library code, not under
`src/`).  Per Notebook A's recorded histories, each run appends exactly
two entries — the user's prompt, then the assistant's final answer. -/
def runAppend (hist : List ChatMsg) (prompt answer : String) : List ChatMsg :=
  hist ++ [ChatMsg.user prompt, ChatMsg.assistant answer]

/-- The prompt of Notebook A's first run (cell 7). -/
def promptRun1 : String := "Hi my name is Roberto"

/-- The assistant's recorded final answer of the first run. -/
def answerRun1 : String := "Hello Roberto! How can I assist you today with the weather?"

/-- The prompt of Notebook A's second run (cell 9). -/
def promptRun2 : String := "What is the weather in Virgina, New York and Washington DC?"

/-- The assistant's recorded final answer of the second run. -/
def answerRun2 : String :=
  "The current weather is as follows:\n- Virginia: 74°F\n- New York: 65°F\n- Washington, D.C.: 66°F"

/-- The prompt of Notebook A's third run (cell 10). -/
def promptRun3 : String := "What places did you already help me with the weather?"

/-- The assistant's recorded final answer of the third run. -/
def answerRun3 : String := "I helped you with the weather for Virginia, New York, and Washington, D.C."

/-- Chat history after the first run, per the model. -/
def histAfterRun1 : List ChatMsg := runAppend [] promptRun1 answerRun1

/-- Chat history after the second run, per the model. -/
def histAfterRun2 : List ChatMsg := runAppend histAfterRun1 promptRun2 answerRun2

/-- Chat history after the third run, per the model. -/
def histAfterRun3 : List ChatMsg := runAppend histAfterRun2 promptRun3 answerRun3

/-- The `AIAgent.chat_history` output recorded after the first run
(Notebook A, cell 8). -/
def recordedHistoryAfterRun1 : List ChatMsg :=
  [ .user "Hi my name is Roberto",
    .assistant "Hello Roberto! How can I assist you today with the weather?" ]

/-- The `AIAgent.chat_history` output recorded after the third run
(Notebook A, cell 11). -/
def recordedHistoryAfterRun3 : List ChatMsg :=
  [ .user "Hi my name is Roberto",
    .assistant "Hello Roberto! How can I assist you today with the weather?",
    .user "What is the weather in Virgina, New York and Washington DC?",
    .assistant "The current weather is as follows:\n- Virginia: 74°F\n- New York: 65°F\n- Washington, D.C.: 66°F",
    .user "What places did you already help me with the weather?",
    .assistant "I helped you with the weather for Virginia, New York, and Washington, D.C." ]

/-- The events of Notebook A that the spec's pipeline description names:
declaring the tools list, constructing the agent, a `run` call, and an
inspection of `chat_history`. -/
inductive AEvent where
  | declareTools
  | constructAgent
  | runCall
  | inspectHistory
deriving DecidableEq

/-- The spec-level event (if any) a Notebook A statement corresponds to. -/
def eventOf : PyStmt → Option AEvent
  | .assign ["tools"] _ => some .declareTools
  | .assign ["AIAgent"] (.call (.ident "ReActAgent") _) => some .constructAgent
  | .exprStmt (.call (.attr (.ident "AIAgent") "run") _) => some .runCall
  | .exprStmt (.attr (.ident "AIAgent") "chat_history") => some .inspectHistory
  | _ => none

/-- Notebook A's spec-level events in execution order. -/
def notebookAEvents : List AEvent := notebookAStmts.filterMap eventOf

/-- The calls Notebook A performs at cell level, in execution order. -/
def notebookACalls : List String := stmtListCalls notebookAStmts

/-- The calls Notebook B performs at cell level, in execution order. -/
def notebookBCalls : List String := stmtListCalls notebookBStmts

/-- The sequence of method calls Notebook B makes on the `store` object,
in execution order. -/
def storeOps : List String := stmtListCallsWith storeLabel notebookBStmts

/-- The order of store operations the spec claims Notebook B performs. -/
def claimedStoreOrder : List String :=
  ["add_documents", "get", "update", "delete", "search_similar", "query_with_filters", "reset"]

/-- Whether `pre` is a prefix of `s`, computed on the character lists. -/
def strHasPre (pre s : String) : Bool :=
  List.isPrefixOf pre.data s.data

/-- Whether a call head belongs to the agent or vector-store library
(`dapr_agents` constructors and methods, including the decorator). -/
def isLibCall (h : String) : Bool :=
  h ∈ ["tool", "ReActAgent", "SentenceTransformerEmbedder", "ChromaVectorStore", "Document"]
    || strHasPre "AIAgent." h || strHasPre "store." h

/-- Whether a call head belongs to the closed set of interfaces the
notebooks use: configuration loading (`load_dotenv`), logging setup,
Python builtins (`print`, `zip`), pydantic's `Field`, and the
agent/vector-store library APIs. -/
def isAllowedHead (h : String) : Bool :=
  h ∈ ["load_dotenv", "logging.basicConfig", "print", "zip", "Field"] || isLibCall h

mutual

/-- The shell commands a statement issues (at any nesting depth).  A
shell command invokes an external program directly, outside any Python
call; it is an external interface that the call-head trace does not
cover. -/
def stmtShellCmds : PyStmt → List String
  | .shellCmd cmd => [cmd]
  | .funcDef _ _ _ body => stmtListShellCmds body
  | .classDef _ _ body => stmtListShellCmds body
  | .forIn _ _ body => stmtListShellCmds body
  | .tryExcept body handlers => stmtListShellCmds body ++ stmtListShellCmds handlers
  | .ifStmt _ thenBody elseBody => stmtListShellCmds thenBody ++ stmtListShellCmds elseBody
  | .asyncFuncDef _ _ body => stmtListShellCmds body
  | _ => []

def stmtListShellCmds : List PyStmt → List String
  | [] => []
  | s :: rest => stmtShellCmds s ++ stmtListShellCmds rest

end

/-!
### Claim theorems
-/

/-- Claim C1: for every string `location` (and every random draw),
`get_weather location` returns the string formed by `location`, then
`": "`, then the decimal rendering of an integer temperature `t` with
`60 ≤ t ≤ 80` (the bounds of `random.randint(60, 80)` are inclusive),
then `"F."`. -/
theorem get_weather_format_and_bounds (location : String) (seed : Nat) :
    ∃ t : Nat, 60 ≤ t ∧ t ≤ 80 ∧
      get_weather location seed = location ++ ": " ++ toString t ++ "F." :=
  ⟨randint 60 80 seed,
    by simp only [randint]; omega,
    by simp only [randint]; omega,
    rfl⟩

/-- Claim C2: for every string `distance`, `jump distance` returns exactly
`"I jumped the following distance "` concatenated with `distance`; `jump`
is a pure function of its argument, so two calls with the same argument
return the same string. -/
theorem jump_format (distance : String) :
    jump distance = "I jumped the following distance " ++ distance ∧
    ∀ d : String, d = distance → jump d = jump distance :=
  ⟨rfl, fun _ h => h ▸ rfl⟩

/-- Witness for `jump_format`: instantiation at a concrete distance,
discharging the inner hypothesis `d = distance` at `d = "2 meters"`. -/
theorem jump_format_witness :
    jump "2 meters" = "I jumped the following distance " ++ "2 meters" ∧
    jump "2 meters" = jump "2 meters" :=
  ⟨(jump_format "2 meters").1, (jump_format "2 meters").2 "2 meters" rfl⟩

/-- Claim C3: in Notebook A the spec-level event sequence is: declare the
tools, construct the agent, then exactly three `AIAgent.run` calls — each
a separate statement of the sequential cell list, so each completes before
the next begins — with a `chat_history` inspection after the last run
(and one already after the first). -/
theorem notebookA_three_sequential_runs_then_history :
    notebookAEvents.count AEvent.runCall = 3 ∧
    (notebookAEvents.takeWhile (· ≠ AEvent.constructAgent)).count AEvent.runCall = 0 ∧
    (notebookAEvents.takeWhile (· ≠ AEvent.declareTools)).count AEvent.constructAgent = 0 ∧
    AEvent.inspectHistory ∈ notebookAEvents.reverse.takeWhile (· ≠ AEvent.runCall) ∧
    notebookAEvents = [AEvent.declareTools, AEvent.constructAgent, AEvent.runCall,
      AEvent.inspectHistory, AEvent.runCall, AEvent.runCall, AEvent.inspectHistory] := by
  decide

/-- Claim C4 counterexample: Notebook B's sequence of calls on the store
is not exactly `add_documents, get, update, delete, search_similar,
query_with_filters, reset` — it also performs `count` checks, extra `get`
calls around the update, and `client.list_collections` around the reset. -/
theorem storeOps_ne_claimed_order : storeOps ≠ claimedStoreOrder := by
  decide

/-- Claim C4 (amended): the seven operations `add_documents, get, update,
delete, search_similar, query_with_filters, reset` occur in Notebook B in
exactly this relative order (as a subsequence of the store-call sequence),
but interleaved with auxiliary `count`, `get` and `client.list_collections`
verification calls; every store call is one of these. -/
theorem claimed_store_order_is_subsequence :
    List.Sublist claimedStoreOrder storeOps ∧
    storeOps.all (fun op =>
      claimedStoreOrder.contains op || op ∈ ["count", "client.list_collections"]) = true := by
  constructor
  · decide
  · decide

/-- Claim C5: Notebook A defines exactly the two tool functions
`get_weather` and `jump`; the `tools` list contains exactly these two and
nothing else; that list is what the `ReActAgent` constructor receives; and
the constructed agent registers exactly 2 tools, the first named
`GetWeather` (registration names modelled from the recorded logs). -/
theorem notebookA_exactly_two_tools :
    notebookAFuncDefNames = ["get_weather", "jump"] ∧
    toolsListNames = ["get_weather", "jump"] ∧
    reActAgentToolsArg = [PyExpr.ident "tools"] ∧
    registeredToolNames.length = 2 ∧
    registeredToolNames = ["GetWeather", "Jump"] ∧
    registeredToolNames.head? = some "GetWeather" :=
  ⟨by decide, by decide, rfl, by decide, by decide, by decide⟩

/-- Claim C6: neither notebook contains any error handling — no
`try`/`except` anywhere, no conditional checking any call's result, and
no `raise` or `assert`; every operation is assumed to succeed. -/
theorem notebooks_contain_no_error_handling :
    stmtListHasTry (notebookAStmts ++ notebookBStmts) = false ∧
    stmtListHasIf (notebookAStmts ++ notebookBStmts) = false ∧
    stmtListHasRaise (notebookAStmts ++ notebookBStmts) = false :=
  ⟨rfl, rfl, rfl⟩

/-- Claim C7: the notebooks' outputs are not a deterministic function of
their inputs: there exist two executions of `get_weather` with the same
`location` argument (different random draws) that return different
strings. -/
theorem get_weather_not_deterministic :
    ∃ (location : String) (seed₁ seed₂ : Nat),
      get_weather location seed₁ ≠ get_weather location seed₂ :=
  ⟨"Virginia", 0, 1, by decide⟩

/-- Claim C8: across Notebook A's three runs, `chat_history` is
append-only — the history before each run is a prefix of the history after
it, each run appending exactly the user prompt followed by the assistant's
final answer — so it holds 2 entries after the first run and 6 after the
third, matching the recorded outputs of cells 8 and 11. -/
theorem chat_history_append_only :
    (∀ (h : List ChatMsg) (p a : String), h <+: runAppend h p a) ∧
    histAfterRun1 = recordedHistoryAfterRun1 ∧
    histAfterRun1.length = 2 ∧
    histAfterRun2.length = 4 ∧
    histAfterRun3 = recordedHistoryAfterRun3 ∧
    histAfterRun3.length = 6 ∧
    histAfterRun1 <+: histAfterRun2 ∧
    histAfterRun2 <+: histAfterRun3 :=
  ⟨fun h p a => ⟨[ChatMsg.user p, ChatMsg.assistant a], rfl⟩,
    by decide, rfl, rfl, by decide, rfl,
    ⟨[ChatMsg.user promptRun2, ChatMsg.assistant answerRun2], rfl⟩,
    ⟨[ChatMsg.user promptRun3, ChatMsg.assistant answerRun3], rfl⟩⟩

/-- Claim C9 counterexample: Notebook B does use an external interface
that is neither environment-variable configuration loading nor a library
API call: its second cell issues the shell command
`pip install dapr-agents python-dotenv chromadb sentence-transformers`,
an invocation of the pip package manager, so the claim's "no other
external interface is used" is false as stated. -/
theorem notebookB_uses_pip_shell_interface :
    stmtListShellCmds notebookBStmts =
      ["pip install dapr-agents python-dotenv chromadb sentence-transformers"] ∧
    stmtListShellCmds notebookBStmts ≠ [] := by
  constructor
  · decide
  · decide

/-- Claim C9 (amended): in each notebook, `load_dotenv()` is called, and
every call preceding it is not an agent or vector-store library call (so
configuration is loaded before any such call); every Python call either
notebook makes is from the closed set of interfaces: configuration
loading, logging setup, Python builtins, pydantic field declarations, and
the agent/vector-store library APIs.  Beyond those calls, the only other
external interface used is a single pip-install shell command at the top
of Notebook B (Notebook A issues no shell command). -/
theorem dotenv_before_library_calls :
    "load_dotenv" ∈ notebookACalls ∧
    "load_dotenv" ∈ notebookBCalls ∧
    (notebookACalls.takeWhile (· ≠ "load_dotenv")).all (fun h => !isLibCall h) = true ∧
    (notebookBCalls.takeWhile (· ≠ "load_dotenv")).all (fun h => !isLibCall h) = true ∧
    notebookACalls.all isAllowedHead = true ∧
    notebookBCalls.all isAllowedHead = true ∧
    stmtListShellCmds notebookAStmts = [] ∧
    stmtListShellCmds notebookBStmts =
      ["pip install dapr-agents python-dotenv chromadb sentence-transformers"] := by
  refine ⟨?_, ?_, ?_, ?_, ?_, ?_, ?_, ?_⟩ <;> decide

/-- Claim C10: the notebooks author no concurrency, scheduling or
resource-sharing logic: no concurrency-module import, no `async def`, no
`await` anywhere in either transcript; under the sequential statement-list
semantics of the embedding, their operations form one linear order. -/
theorem notebooks_author_no_concurrency :
    stmtListUsesConcurrency (notebookAStmts ++ notebookBStmts) = false :=
  rfl
